import Mathlib

/-!
Shallow embedding of `src/jagent/Script/jenkins-agent-automation.py`.

The script registers a Jenkins agent over the REST API, downloads the
agent jar, installs it as a platform service and then monitors the
service in an infinite poll loop, mailing an alert on every failed poll.

Python exceptions are modelled explicitly: `SystemExit` (raised by the
script on every fatal path) derives from `BaseException` but NOT from
`Exception`, so an `except Exception` handler does not catch it.  Effectful
functions return an explicit trace of the side effects they performed
together with an `Except` result, so that partial effects before a fatal
exit stay observable.
-/

namespace JAgent

/-- Python exception classes relevant to the script.  `systemExit` models
`SystemExit` (not a subclass of `Exception`); `exception` models any
subclass of `Exception` (`ValueError`, `IndexError`, `OSError`, ...). -/
inductive PyExc where
  | systemExit (msg : String)
  | exception (msg : String)
  deriving DecidableEq, Repr

/-- Semantics of except Exception as e: handler e — catches only `exception`,
letting `systemExit` propagate, exactly as an except Exception clause in Python
does not catch SystemExit. -/
def catchException {α : Type} (r : Except PyExc α) (handler : String → Except PyExc α) :
    Except PyExc α :=
  match r with
  | .error (.exception m) => handler m
  | r => r

/-- Function check_agent_exists: GET on the per-agent status endpoint; embedded as a
function of the HTTP status code the server answered with.  200 means the
agent exists, 404 means it does not, anything else raises
`SystemExit("Error: Unexpected response code ...")`. -/
def check_agent_exists (status : Nat) : Except PyExc Bool :=
  if status = 200 then .ok true
  else if status = 404 then .ok false
  else .error (.systemExit ("Error: Unexpected response code " ++ toString status))

/-- Classification a monitor cycle assigns to the service. -/
inductive PollStatus where
  | running
  | failed
  deriving DecidableEq, Repr

/-- The classification step of `monitor_service`: the branch
`if result.returncode != 0` on the exit code of the status command. -/
def pollStep (returncode : Int) : PollStatus :=
  if returncode ≠ 0 then .failed else .running

/-- Function send_email: connects to the SMTP relay, authenticates and sends one
message.  Any failure in that block raises
`SystemExit("Error sending email: ...")`.  Embedded as a function of
whether the SMTP interaction succeeds. -/
def send_email (smtpOk : Bool) : Except PyExc Unit :=
  if smtpOk then .ok () else .error (.systemExit "Error sending email")

/-- The status command list `monitor_service` builds from
`platform.system()`: `systemctl is-active <name>.service` on Linux,
`sc query <name>` on Windows, and the empty list on anything else. -/
def service_status_cmd (currentPlatform : String) (agent_name : String) : List String :=
  if currentPlatform = "Linux" then
    ["systemctl", "is-active", agent_name ++ ".service"]
  else if currentPlatform = "Windows" then
    ["sc", "query", agent_name]
  else []

/-- Running subprocess.run cmd: with an empty argument list Python raises an
`IndexError` (an `Exception`) before any process is spawned; with a
non-empty list the embedding returns the exit code the environment
supplies for this cycle. -/
def subprocessRun (cmd : List String) (returncode : Int) : Except PyExc Int :=
  if cmd.isEmpty then .error (.exception "list index out of range")
  else .ok returncode

/-- One observed monitor cycle: the exit code the status command would
return, and whether the SMTP send would succeed if attempted. -/
structure Cycle where
  rc : Int
  smtpOk : Bool
  deriving DecidableEq, Repr

/-- Observable events of the monitor loop. -/
inductive MEvent where
  | loggedRunning (agent_name : String)
  | notified (subject : String) (body : String)
  deriving DecidableEq, Repr

/-- The body of the while True loop of `monitor_service`, run for a finite
prefix of cycles (the loop itself never terminates; `.ok trace` means the
loop is still polling after consuming the observations). -/
def monitorLoop (cmd : List String) (agent_name : String) :
    List Cycle → Except PyExc (List MEvent)
  | [] => .ok []
  | c :: rest =>
    match subprocessRun cmd c.rc with
    | .error e => .error e
    | .ok rc =>
      if rc ≠ 0 then
        match send_email c.smtpOk with
        | .error e => .error e
        | .ok _ =>
          match monitorLoop cmd agent_name rest with
          | .error e => .error e
          | .ok tr =>
            .ok (.notified ("Service Failure: " ++ agent_name)
                  ("The Jenkins agent service " ++ agent_name ++
                    " has failed or stopped unexpectedly.") :: tr)
      else
        match monitorLoop cmd agent_name rest with
        | .error e => .error e
        | .ok tr => .ok (.loggedRunning agent_name :: tr)

/-- Function monitor_service: builds the platform status command, runs the loop,
and wraps it in `try ... except Exception`, which converts any `Exception`
into `SystemExit("Error monitoring service: ...")` but lets `SystemExit`
from `send_email` pass through untouched. -/
def monitor_service (currentPlatform : String) (agent_name : String)
    (cycles : List Cycle) : Except PyExc (List MEvent) :=
  catchException
    (monitorLoop (service_status_cmd currentPlatform agent_name) agent_name cycles)
    (fun m => .error (.systemExit ("Error monitoring service: " ++ m)))

/-- Filesystem / process side effects the installer performs. -/
inductive Effect where
  | mkdir (path : String)
  | httpGet (url : String)
  | writeFile (path : String)
  | spawn (cmd : List String)
  deriving DecidableEq, Repr

/-- Whether an effect spawns a subprocess. -/
def Effect.isSpawn : Effect → Bool
  | .spawn _ => true
  | _ => false

/-- Whether an effect creates a directory or writes a file. -/
def Effect.isFs : Effect → Bool
  | .mkdir _ => true
  | .writeFile _ => true
  | _ => false

/-- Environment of one installer run: whether the working directory
already exists, whether creating it would succeed, whether the jar
download would succeed, and whether the service-manager commands would
succeed. -/
structure InstallEnv where
  dirExists : Bool
  mkdirOk : Bool
  downloadOk : Bool
  svcOk : Bool
  deriving DecidableEq, Repr

/-- Function download_agent_jar: ensures `remote_fs` exists (creating it if
absent), GETs `jnlpJars/agent.jar` from the master and writes it to
`remote_fs/agent.jar`; every failure raises `SystemExit`.  Returns the
effects performed so far together with the jar path or the exception. -/
def download_agent_jar (jenkins_url remote_fs : String) (env : InstallEnv) :
    List Effect × Except PyExc String :=
  let jar_url := jenkins_url ++ "/jnlpJars/agent.jar"
  let jar_path := remote_fs ++ "/agent.jar"
  if env.dirExists then
    if env.downloadOk then
      ([.httpGet jar_url, .writeFile jar_path], .ok jar_path)
    else
      ([.httpGet jar_url], .error (.systemExit ("Error downloading agent.jar from " ++ jar_url)))
  else
    if env.mkdirOk then
      if env.downloadOk then
        ([.mkdir remote_fs, .httpGet jar_url, .writeFile jar_path], .ok jar_path)
      else
        ([.mkdir remote_fs, .httpGet jar_url],
          .error (.systemExit ("Error downloading agent.jar from " ++ jar_url)))
    else
      ([], .error (.systemExit ("Error creating directory " ++ remote_fs)))

/-- Function create_linux_service, effect level: writes the systemd unit
file and spawns daemon-reload / enable / start; any failure raises
`SystemExit`. -/
def create_linux_service (agent_name : String) (env : InstallEnv) :
    List Effect × Except PyExc Unit :=
  let fx : List Effect :=
    [.writeFile ("/etc/systemd/system/" ++ agent_name ++ ".service"),
     .spawn ["systemctl", "daemon-reload"],
     .spawn ["systemctl", "enable", agent_name ++ ".service"],
     .spawn ["systemctl", "start", agent_name ++ ".service"]]
  if env.svcOk then (fx, .ok ())
  else (fx, .error (.systemExit "Failed to create and start the systemd service"))

/-- Function create_windows_service, effect level: spawns NSSM install and
start commands; any failure raises `SystemExit`. -/
def create_windows_service (agent_name jenkins_url username api_token jar_path work_dir : String)
    (env : InstallEnv) : List Effect × Except PyExc Unit :=
  let service_name := agent_name ++ "_service"
  let nssm_path := "C:\\path\\to\\nssm.exe"
  let fx : List Effect :=
    [.spawn [nssm_path, "install", service_name, "java", "-jar", jar_path,
             "-jnlpUrl", jenkins_url ++ "/computer/" ++ agent_name ++ "/jenkins-agent.jnlp",
             "-jnlpCredentials", username ++ ":" ++ api_token,
             "-workDir", work_dir],
     .spawn [nssm_path, "start", service_name]]
  if env.svcOk then (fx, .ok ())
  else (fx, .error (.systemExit "Failed to create and start the Windows service"))

/-- Function install_agent_service: downloads the agent jar FIRST, and only
then dispatches on `platform.system()`; a platform that is neither Linux
nor Windows raises `SystemExit("Unsupported platform: ...")` after the
download already happened. -/
def install_agent_service (agent_name jenkins_url remote_fs username api_token : String)
    (currentPlatform : String) (env : InstallEnv) : List Effect × Except PyExc Unit :=
  match download_agent_jar jenkins_url remote_fs env with
  | (tr, .error e) => (tr, .error e)
  | (tr, .ok jar_path) =>
    if currentPlatform = "Linux" then
      let (tr2, r2) := create_linux_service agent_name env
      (tr ++ tr2, r2)
    else if currentPlatform = "Windows" then
      let (tr2, r2) := create_windows_service agent_name jenkins_url username api_token
        jar_path remote_fs env
      (tr ++ tr2, r2)
    else
      (tr, .error (.systemExit ("Unsupported platform: " ++ currentPlatform)))

/-- Command-line arguments of parse_arguments: jenkins_url, username,
api_token, agent_name, remote_fs are required; label defaults to the empty
string, executors defaults to 1; config_file is required but unused by the
rest of the script. -/
structure Args where
  jenkins_url : String
  username : String
  api_token : String
  agent_name : String
  remote_fs : String
  label : String
  executors : Int
  config_file : String
  deriving DecidableEq, Repr

/-- The inner JSON object of the node-creation payload built by
create_agent, field for field. -/
structure NodeJson where
  name : String
  nodeDescription : String
  numExecutors : Nat
  remoteFS : String
  labelString : String
  mode : String
  retentionStrategyClass : String
  launcherClass : String
  launcherWorkDirDisabled : Bool
  launcherInternalDir : String
  launcherFailIfWorkDirIsMissing : Bool
  nodePropertiesBag : String
  deriving DecidableEq, Repr

/-- The outer form data of the node-creation POST: name, type and the
JSON-encoded node description. -/
structure CreateAgentData where
  name : String
  type : String
  json : NodeJson
  deriving DecidableEq, Repr

/-- The payload create_agent builds: a DumbSlave with numExecutors
hard-coded to 1, an Always retention strategy and a JNLPLauncher.
create_agent receives no executor count at all. -/
def create_agent_data (agent_name remote_fs label : String) : CreateAgentData :=
  { name := agent_name
    type := "hudson.slaves.DumbSlave"
    json :=
      { name := agent_name
        nodeDescription := "Created by REST API"
        numExecutors := 1
        remoteFS := remote_fs
        labelString := label
        mode := "NORMAL"
        retentionStrategyClass := "hudson.slaves.RetentionStrategy$Always"
        launcherClass := "hudson.slaves.JNLPLauncher"
        launcherWorkDirDisabled := false
        launcherInternalDir := "remoting"
        launcherFailIfWorkDirIsMissing := false
        nodePropertiesBag := "true" } }

/-- The node-creation payload a run of main POSTs, as a function of the
parsed arguments: main passes agent_name, remote_fs and label to
create_agent and nothing else. -/
def mainCreatePayload (args : Args) : CreateAgentData :=
  create_agent_data args.agent_name args.remote_fs args.label

/-- Steps of main, in order: CSRF crumb fetch, existence check, agent
creation, service install, monitor start. -/
inductive MainAction where
  | fetchCrumb
  | checkExists
  | createAgentCall
  | installCall
  | monitorCall
  deriving DecidableEq, Repr

/-- Environment of one run of main: whether the crumb fetch succeeds, the
HTTP status of the existence probe, whether the creation POST succeeds,
the host platform, the installer environment and the observed monitor
cycles. -/
structure MainEnv where
  csrfOk : Bool
  checkStatus : Nat
  createOk : Bool
  currentPlatform : String
  install : InstallEnv
  cycles : List Cycle
  deriving DecidableEq, Repr

/-- Steps 4 and 5 of main: install the service, then start the monitor;
neither step ever calls create_agent. -/

def installAndMonitor (args : Args) (env : MainEnv) : List MainAction × Except PyExc Unit :=
  match install_agent_service args.agent_name args.jenkins_url args.remote_fs
    args.username args.api_token env.currentPlatform env.install with
  | (_, .error e) => ([.installCall], .error e)
  | (_, .ok _) =>
    match monitor_service env.currentPlatform args.agent_name env.cycles with
    | .error e => ([.installCall, .monitorCall], .error e)
    | .ok _ => ([.installCall, .monitorCall], .ok ())

/-- Function main: fetch the crumb, check whether the agent exists, create
it only when the check returned false, then install the service and start
the monitor.  Every step propagates its `SystemExit` and aborts the run;
the trace records which steps were reached. -/
def mainRun (args : Args) (env : MainEnv) : List MainAction × Except PyExc Unit :=
  if !env.csrfOk then
    ([.fetchCrumb], .error (.systemExit "Error retrieving CSRF token"))
  else
    match check_agent_exists env.checkStatus with
    | .error e => ([.fetchCrumb, .checkExists], .error e)
    | .ok agentExists =>
      let createTrace : List MainAction × Except PyExc Unit :=
        if agentExists then ([], .ok ())
        else if env.createOk then ([.createAgentCall], .ok ())
        else ([.createAgentCall], .error (.systemExit "Error creating agent"))
      match createTrace with
      | (trC, .error e) => ([.fetchCrumb, .checkExists] ++ trC, .error e)
      | (trC, .ok _) =>
        let (trT, rT) := installAndMonitor args env
        ([.fetchCrumb, .checkExists] ++ trC ++ trT, rT)

/-- Strings handled character-wise, for the unit-file renderer. -/
abbrev Chars := List Char

/-- The trailing-slash normalization at the top of create_linux_service:
if jenkins_url ends with a slash, drop its last character. -/
def stripTrailingSlash (jenkins_url : Chars) : Chars :=
  if jenkins_url.getLast? = some '/' then jenkins_url.dropLast else jenkins_url

/-- The exec command create_linux_service embeds in the ExecStart line,
built from the (slash-normalized) server URL, the jar path, the agent
name, the credentials and the working directory. -/
def execCommand (jar_path jenkins_url agent_name username api_token work_dir : Chars) : Chars :=
  let u := stripTrailingSlash jenkins_url
  "/usr/bin/java -jar ".toList ++ jar_path ++
    " -jnlpUrl ".toList ++ u ++ "/computer/".toList ++ agent_name ++
    "/jenkins-agent.jnlp -jnlpCredentials ".toList ++ username ++ ":".toList ++ api_token ++
    " -workDir ".toList ++ work_dir

/-- The systemd unit text create_linux_service renders (the Python
triple-quoted f-string, which starts and ends with a newline). -/
def service_content (jar_path jenkins_url agent_name username api_token work_dir : Chars) :
    Chars :=
  "\n[Unit]\nDescription=Jenkins Agent for ".toList ++ agent_name ++
    "\nAfter=network.target\n\n[Service]\nExecStart=".toList ++
    execCommand jar_path jenkins_url agent_name username api_token work_dir ++
    "\nUser=gopal\nRestart=on-failure\n\n[Install]\nWantedBy=multi-user.target\n".toList

/-- Split a character string at newline characters; the result always has
one more entry than the string has newlines. -/
def splitOnNl : Chars → List Chars
  | [] => [[]]
  | c :: t =>
    if c = '\n' then [] :: splitOnNl t
    else
      match splitOnNl t with
      | [] => [[c]]
      | l :: ls => (c :: l) :: ls

/-- Modelled from the spec: the repository has no parser for the unit
file, only the renderer; the spec round-trip property reads the ExecStart
line back out of the rendered text.  This parser splits the text into
lines, finds the first line starting with ExecStart= and returns the rest
of that line. -/
def parseExecStart (content : Chars) : Option Chars :=
  ((splitOnNl content).find? (fun l => "ExecStart=".toList.isPrefixOf l)).map
    (fun l => l.drop "ExecStart=".toList.length)

/-- C3: pollStep is a total function on exit codes mapping 0 to RUNNING
and every non-zero code to FAILED. -/
theorem pollStep_spec (returncode : Int) :
    (pollStep returncode = .running ↔ returncode = 0) ∧
    (pollStep returncode = .failed ↔ returncode ≠ 0) := by
  by_cases h : returncode = 0 <;> simp [pollStep, h]

/-- Witness for pollStep_spec at exit codes 0 and 3. -/
theorem pollStep_spec_witness :
    pollStep 0 = .running ∧ pollStep 3 = .failed :=
  ⟨(pollStep_spec 0).1.mpr rfl, (pollStep_spec 3).2.mpr (by decide)⟩

/-- C6: check_agent_exists answers true exactly on status 200, false
exactly on status 404, and raises SystemExit on every other status. -/
theorem check_agent_exists_spec (status : Nat) :
    (check_agent_exists status = .ok true ↔ status = 200) ∧
    (check_agent_exists status = .ok false ↔ status = 404) ∧
    (status ≠ 200 → status ≠ 404 →
      check_agent_exists status =
        .error (.systemExit ("Error: Unexpected response code " ++ toString status))) := by
  by_cases h2 : status = 200 <;> by_cases h4 : status = 404 <;>
    simp [check_agent_exists, h2, h4]

/-- Witness for check_agent_exists_spec at statuses 200, 404 and 500. -/
theorem check_agent_exists_spec_witness :
    check_agent_exists 200 = .ok true ∧ check_agent_exists 404 = .ok false ∧
    check_agent_exists 500 =
      .error (.systemExit ("Error: Unexpected response code " ++ toString 500)) :=
  ⟨(check_agent_exists_spec 200).1.mpr rfl, (check_agent_exists_spec 404).2.1.mpr rfl,
    (check_agent_exists_spec 500).2.2 (by decide) (by decide)⟩

/-- C7: the node-creation payload ignores the executors argument entirely
and always describes a single-executor DumbSlave with Always retention and
a JNLPLauncher. -/
theorem create_agent_payload_spec (args : Args) (n : Int) :
    mainCreatePayload { args with executors := n } = mainCreatePayload args ∧
    (mainCreatePayload args).json.numExecutors = 1 ∧
    (mainCreatePayload args).type = "hudson.slaves.DumbSlave" ∧
    (mainCreatePayload args).json.retentionStrategyClass =
      "hudson.slaves.RetentionStrategy$Always" ∧
    (mainCreatePayload args).json.launcherClass = "hudson.slaves.JNLPLauncher" :=
  ⟨rfl, rfl, rfl, rfl, rfl⟩

/-- C10: on a platform that is neither Linux nor Windows the status
command list is empty, the first poll raises inside subprocess.run, and
monitor_service escalates to a fatal SystemExit without ever classifying
the service or notifying. -/
theorem monitor_service_unsupported (currentPlatform agent_name : String)
    (c : Cycle) (rest : List Cycle)
    (hL : currentPlatform ≠ "Linux") (hW : currentPlatform ≠ "Windows") :
    monitor_service currentPlatform agent_name (c :: rest) =
      .error (.systemExit "Error monitoring service: list index out of range") ∧
    ∀ tr : List MEvent, monitor_service currentPlatform agent_name (c :: rest) ≠ .ok tr := by
  have h : service_status_cmd currentPlatform agent_name = [] := by
    simp [service_status_cmd, hL, hW]
  refine ⟨?_, ?_⟩ <;>
    simp [monitor_service, h, monitorLoop, subprocessRun, catchException]

/-- Witness for monitor_service_unsupported on the Darwin platform. -/
theorem monitor_service_unsupported_witness :
    monitor_service "Darwin" "worker-1" [⟨0, true⟩] =
      .error (.systemExit "Error monitoring service: list index out of range") :=
  (monitor_service_unsupported "Darwin" "worker-1" ⟨0, true⟩ []
    (by decide) (by decide)).1

/-- C1 counterexample: on the unsupported platform Darwin with a missing
working directory, install_agent_service does fail with the unsupported
platform SystemExit, but only after creating the directory and writing the
downloaded jar file. -/
theorem install_unsupported_side_effects_cex :
    (install_agent_service "worker-1" "http://ci:8080" "/w" "u" "t" "Darwin"
        ⟨false, true, true, true⟩).2 =
      .error (.systemExit "Unsupported platform: Darwin") ∧
    Effect.mkdir "/w" ∈
      (install_agent_service "worker-1" "http://ci:8080" "/w" "u" "t" "Darwin"
        ⟨false, true, true, true⟩).1 ∧
    Effect.writeFile "/w/agent.jar" ∈
      (install_agent_service "worker-1" "http://ci:8080" "/w" "u" "t" "Darwin"
        ⟨false, true, true, true⟩).1 :=
  ⟨rfl, by decide, by decide⟩

/-- C1 amended: on an unsupported platform install_agent_service spawns no
subprocess, and whenever the download succeeds (directory present or
creatable) it fails with the unsupported-platform SystemExit; the
directory creation and jar write still happen first. -/
theorem install_agent_service_unsupported (agent_name jenkins_url remote_fs username
    api_token currentPlatform : String) (env : InstallEnv)
    (hL : currentPlatform ≠ "Linux") (hW : currentPlatform ≠ "Windows") :
    (∀ e ∈ (install_agent_service agent_name jenkins_url remote_fs username api_token
        currentPlatform env).1, e.isSpawn = false) ∧
    (env.downloadOk = true → env.dirExists = true ∨ env.mkdirOk = true →
      (install_agent_service agent_name jenkins_url remote_fs username api_token
          currentPlatform env).2 =
        .error (.systemExit ("Unsupported platform: " ++ currentPlatform))) := by
  rcases env with ⟨de, mk, dl, sv⟩
  cases de <;> cases mk <;> cases dl <;>
    simp [install_agent_service, download_agent_jar, hL, hW, Effect.isSpawn]

/-- Witness for install_agent_service_unsupported on Darwin with an
absent but creatable working directory. -/
theorem install_agent_service_unsupported_witness :
    (install_agent_service "worker-1" "http://ci:8080" "/w" "u" "t" "Darwin"
        ⟨false, true, true, true⟩).2 =
      .error (.systemExit ("Unsupported platform: " ++ "Darwin")) :=
  (install_agent_service_unsupported "worker-1" "http://ci:8080" "/w" "u" "t" "Darwin"
    ⟨false, true, true, true⟩ (by decide) (by decide)).2 rfl (Or.inr rfl)

/-- If the loop consumes a prefix of cycles without raising, running it on
the prefix followed by more cycles prepends the events of the prefix. -/
lemma monitorLoop_append (cmd : List String) (agent_name : String) (pre l2 : List Cycle)
    (tr : List MEvent) (h : monitorLoop cmd agent_name pre = .ok tr) :
    monitorLoop cmd agent_name (pre ++ l2) =
      (monitorLoop cmd agent_name l2).map (fun t => tr ++ t) := by
  induction pre generalizing tr with
  | nil =>
    simp only [monitorLoop] at h
    cases h
    cases hm : monitorLoop cmd agent_name l2 <;> simp [hm, Except.map]
  | cons c pre ih =>
    rw [List.cons_append]
    rw [monitorLoop] at h
    conv_lhs => rw [monitorLoop]
    split at h
    next e heq => exact Except.noConfusion h
    next rc heq =>
      by_cases hrc : rc ≠ 0
      · rw [if_pos hrc] at h ⊢
        split at h
        next e heq2 => exact Except.noConfusion h
        next u heq2 =>
          split at h
          next e heq3 => exact Except.noConfusion h
          next tr0 heq3 =>
            injection h with h
            subst h
            rw [ih tr0 heq3]
            cases hm : monitorLoop cmd agent_name l2 <;> simp [hm, Except.map]
      · rw [if_neg hrc] at h ⊢
        split at h
        next e heq3 => exact Except.noConfusion h
        next tr0 heq3 =>
          injection h with h
          subst h
          rw [ih tr0 heq3]
          cases hm : monitorLoop cmd agent_name l2 <;> simp [hm, Except.map]

/-- C4: a failed SMTP send during any cycle of the Linux monitor loop is
fatal: the SystemExit raised by send_email passes through the except
Exception wrapper of monitor_service untouched. -/
theorem monitor_email_failure_fatal (agent_name : String) (pre : List Cycle) (c : Cycle)
    (rest : List Cycle) (tr : List MEvent)
    (hpre : monitorLoop (service_status_cmd "Linux" agent_name) agent_name pre = .ok tr)
    (hrc : c.rc ≠ 0) (hsmtp : c.smtpOk = false) :
    monitor_service "Linux" agent_name (pre ++ c :: rest) =
      .error (.systemExit "Error sending email") := by
  have hcons : monitorLoop (service_status_cmd "Linux" agent_name) agent_name (c :: rest) =
      .error (.systemExit "Error sending email") := by
    unfold monitorLoop
    simp [subprocessRun, service_status_cmd, hrc, hsmtp, send_email]
  unfold monitor_service
  rw [monitorLoop_append _ _ _ _ _ hpre, hcons]
  rfl

/-- Witness for monitor_email_failure_fatal: one healthy cycle, then a
failing poll whose alert mail cannot be sent. -/
theorem monitor_email_failure_fatal_witness :
    monitor_service "Linux" "worker-1" [⟨0, true⟩, ⟨3, false⟩] =
      .error (.systemExit "Error sending email") :=
  monitor_email_failure_fatal "worker-1" [⟨0, true⟩] ⟨3, false⟩ []
    [.loggedRunning "worker-1"] rfl (by decide) rfl

/-- C5: a failed poll with exit code 3 whose notification succeeds
produces exactly one notification whose subject contains the service
name, and the loop keeps polling; a second failed poll notifies again. -/
theorem monitor_failed_poll_notifies (agent_name : String) (rest : List Cycle)
    (tr : List MEvent)
    (h : monitorLoop (service_status_cmd "Linux" agent_name) agent_name rest = .ok tr) :
    monitor_service "Linux" agent_name (⟨3, true⟩ :: rest) =
      .ok (.notified ("Service Failure: " ++ agent_name)
        ("The Jenkins agent service " ++ agent_name ++
          " has failed or stopped unexpectedly.") :: tr) ∧
    (∃ p, "Service Failure: " ++ agent_name = p ++ agent_name) ∧
    monitor_service "Linux" agent_name (⟨3, true⟩ :: ⟨3, true⟩ :: rest) =
      .ok (.notified ("Service Failure: " ++ agent_name)
        ("The Jenkins agent service " ++ agent_name ++
          " has failed or stopped unexpectedly.") ::
        .notified ("Service Failure: " ++ agent_name)
        ("The Jenkins agent service " ++ agent_name ++
          " has failed or stopped unexpectedly.") :: tr) := by
  have h9 : monitorLoop ["systemctl", "is-active", agent_name ++ ".service"]
      agent_name rest = .ok tr := by
    simpa [service_status_cmd] using h
  refine ⟨?_, ⟨"Service Failure: ", rfl⟩, ?_⟩ <;>
    simp [monitor_service, monitorLoop, subprocessRun, send_email, service_status_cmd,
      h9, catchException]

/-- Witness for monitor_failed_poll_notifies with one healthy trailing
cycle. -/
theorem monitor_failed_poll_notifies_witness :
    monitor_service "Linux" "worker-1" [⟨3, true⟩, ⟨0, true⟩] =
      .ok [.notified ("Service Failure: " ++ "worker-1")
        ("The Jenkins agent service " ++ "worker-1" ++
          " has failed or stopped unexpectedly."), .loggedRunning "worker-1"] :=
  (monitor_failed_poll_notifies "worker-1" [⟨0, true⟩]
    [.loggedRunning "worker-1"] rfl).1

/-- The install and monitor phases of main never call create_agent. -/
lemma installAndMonitor_count (args : Args) (env : MainEnv) :
    (installAndMonitor args env).1.count MainAction.createAgentCall = 0 := by
  unfold installAndMonitor
  rcases install_agent_service args.agent_name args.jenkins_url args.remote_fs
      args.username args.api_token env.currentPlatform env.install with ⟨tr, r⟩
  cases r with
  | error e => rfl
  | ok u =>
    cases hm : monitor_service env.currentPlatform args.agent_name env.cycles <;> rfl

/-- C2: create_agent is called exactly when the existence check ran and
returned false, never more than once per run; a 404 probe (agent absent)
yields exactly one call and a 200 probe (agent present) none. -/
theorem mainRun_create_gating (args : Args) (env : MainEnv) :
    ((mainRun args env).1.count .createAgentCall ≤ 1) ∧
    ((mainRun args env).1.count .createAgentCall = 1 ↔
      env.csrfOk = true ∧ check_agent_exists env.checkStatus = .ok false) ∧
    (env.csrfOk = true → env.checkStatus = 404 →
      (mainRun args env).1.count .createAgentCall = 1) ∧
    (env.checkStatus = 200 → (mainRun args env).1.count .createAgentCall = 0) := by
  have hT := installAndMonitor_count args env
  rcases hIM : installAndMonitor args env with ⟨trT, rT⟩
  rw [hIM] at hT
  have hT9 : trT.count MainAction.createAgentCall = 0 := hT
  unfold mainRun
  cases hcs : env.csrfOk with
  | false =>
    simp [hcs, List.count_cons, List.count_nil]
  | true =>
    by_cases h200 : env.checkStatus = 200
    · simp [hcs, h200, check_agent_exists, hIM, List.count_append, List.count_cons,
        List.count_nil, hT9]
    · by_cases h404 : env.checkStatus = 404
      · cases hco : env.createOk with
        | false =>
          simp [hcs, h200, h404, hco, check_agent_exists, hIM, List.count_append,
            List.count_cons, List.count_nil, hT9]
        | true =>
          simp [hcs, h200, h404, hco, check_agent_exists, hIM, List.count_append,
            List.count_cons, List.count_nil, hT9]
      · simp [hcs, h200, h404, check_agent_exists, hIM, List.count_append,
          List.count_cons, List.count_nil, hT9]

/-- Witness for mainRun_create_gating: crumb fetch succeeds and the probe
answers 404, so the run calls create_agent exactly once. -/
theorem mainRun_create_gating_witness :
    ((mainRun ⟨"http://ci:8080", "u", "t", "worker-1", "/w", "", 1, "c.json"⟩
        ⟨true, 404, true, "Linux", ⟨true, true, true, true⟩, []⟩).1.count
      MainAction.createAgentCall = 1) :=
  (mainRun_create_gating ⟨"http://ci:8080", "u", "t", "worker-1", "/w", "", 1, "c.json"⟩
    ⟨true, 404, true, "Linux", ⟨true, true, true, true⟩, []⟩).2.2.1 rfl rfl

/-- Splitting starts a new line at an explicit newline after a
newline-free chunk. -/
lemma splitOnNl_append_cons (s : Chars) (h : '\n' ∉ s) (r : Chars) :
    splitOnNl (s ++ '\n' :: r) = s :: splitOnNl r := by
  induction s with
  | nil => simp [splitOnNl]
  | cons c t ih =>
    have hc : c ≠ '\n' := fun hce => h (hce ▸ List.mem_cons_self c t)
    have ht : '\n' ∉ t := fun hm => h (List.mem_cons_of_mem c hm)
    rw [List.cons_append]
    simp only [splitOnNl, if_neg hc, ih ht]

/-- Splitting at a leading newline yields an empty first line. -/
lemma splitOnNl_cons_nl (r : Chars) : splitOnNl ('\n' :: r) = [] :: splitOnNl r := by
  simp [splitOnNl]

/-- A list is a prefix of itself followed by anything. -/
lemma isPrefixOf_append_self (p s : Chars) : p.isPrefixOf (p ++ s) = true := by
  simp [List.isPrefixOf_iff_prefix]

/-- A nonempty pattern is no prefix of a list with a different head. -/
lemma isPrefixOf_ne_head (c : Char) (p s : Chars) (h : s.head? ≠ some c) :
    (c :: p).isPrefixOf s = false := by
  cases s with
  | nil => rfl
  | cons b bs =>
    have hcb : c ≠ b := fun hcb => h (by simp [hcb])
    simp [List.isPrefixOf, hcb]

/-- The embedded exec command contains no newline when none of its inputs
does. -/
lemma execCommand_no_nl (jar_path jenkins_url agent_name username api_token work_dir : Chars)
    (h1 : '\n' ∉ jar_path) (h2 : '\n' ∉ jenkins_url) (h3 : '\n' ∉ agent_name)
    (h4 : '\n' ∉ username) (h5 : '\n' ∉ api_token) (h6 : '\n' ∉ work_dir) :
    '\n' ∉ execCommand jar_path jenkins_url agent_name username api_token work_dir := by
  have hu : '\n' ∉ stripTrailingSlash jenkins_url := by
    unfold stripTrailingSlash
    split
    · exact fun hm => h2 ((List.dropLast_sublist jenkins_url).mem hm)
    · exact h2
  unfold execCommand
  simp [List.mem_append, hu, h1, h3, h4, h5, h6,
    (by decide : '\n' ∉ "/usr/bin/java -jar ".toList),
    (by decide : '\n' ∉ " -jnlpUrl ".toList),
    (by decide : '\n' ∉ "/computer/".toList),
    (by decide : '\n' ∉ "/jenkins-agent.jnlp -jnlpCredentials ".toList),
    (by decide : '\n' ∉ ":".toList),
    (by decide : '\n' ∉ " -workDir ".toList)]

/-- The rendered unit text, reassociated into its newline-separated
lines. -/
lemma service_content_lines (jar_path jenkins_url agent_name username api_token
    work_dir : Chars) :
    service_content jar_path jenkins_url agent_name username api_token work_dir =
      '\n' :: ("[Unit]".toList ++ '\n' ::
        (("Description=Jenkins Agent for ".toList ++ agent_name) ++ '\n' ::
        ("After=network.target".toList ++ '\n' ::
        ('\n' ::
        ("[Service]".toList ++ '\n' ::
        (("ExecStart=".toList ++
            execCommand jar_path jenkins_url agent_name username api_token work_dir) ++ '\n' ::
        ("User=gopal".toList ++ '\n' ::
        ("Restart=on-failure".toList ++ '\n' ::
        ('\n' ::
        ("[Install]".toList ++ '\n' ::
        ("WantedBy=multi-user.target".toList ++ '\n' :: ([] : Chars)))))))))))) := by
  have e1 : ("\n[Unit]\nDescription=Jenkins Agent for ".toList : Chars) =
      '\n' :: ("[Unit]".toList ++ '\n' :: "Description=Jenkins Agent for ".toList) := by rfl
  have e2 : ("\nAfter=network.target\n\n[Service]\nExecStart=".toList : Chars) =
      '\n' :: ("After=network.target".toList ++ '\n' :: '\n' ::
        ("[Service]".toList ++ '\n' :: "ExecStart=".toList)) := by rfl
  have e3 : ("\nUser=gopal\nRestart=on-failure\n\n[Install]\nWantedBy=multi-user.target\n".toList :
      Chars) =
      '\n' :: ("User=gopal".toList ++ '\n' :: ("Restart=on-failure".toList ++ '\n' :: '\n' ::
        ("[Install]".toList ++ '\n' :: ("WantedBy=multi-user.target".toList ++
          '\n' :: ([] : Chars))))) := by rfl
  unfold service_content
  rw [e1, e2, e3]
  simp [List.append_assoc]

lemma splitOnNl_service_content (jar_path jenkins_url agent_name username api_token
    work_dir : Chars) (h3 : '\n' ∉ agent_name)
    (hcmd : '\n' ∉ execCommand jar_path jenkins_url agent_name username api_token work_dir) :
    splitOnNl (service_content jar_path jenkins_url agent_name username api_token work_dir) =
      [[], "[Unit]".toList, "Description=Jenkins Agent for ".toList ++ agent_name,
       "After=network.target".toList, [], "[Service]".toList,
       "ExecStart=".toList ++
         execCommand jar_path jenkins_url agent_name username api_token work_dir,
       "User=gopal".toList, "Restart=on-failure".toList, [], "[Install]".toList,
       "WantedBy=multi-user.target".toList, []] := by
  have hdesc : '\n' ∉ "Description=Jenkins Agent for ".toList ++ agent_name := by
    simp [List.mem_append, h3, (by decide : '\n' ∉ "Description=Jenkins Agent for ".toList)]
  have hexec : '\n' ∉ "ExecStart=".toList ++
      execCommand jar_path jenkins_url agent_name username api_token work_dir := by
    simp [List.mem_append, hcmd, (by decide : '\n' ∉ "ExecStart=".toList)]
  rw [service_content_lines, splitOnNl_cons_nl,
    splitOnNl_append_cons "[Unit]".toList (by decide),
    splitOnNl_append_cons _ hdesc,
    splitOnNl_append_cons "After=network.target".toList (by decide),
    splitOnNl_cons_nl,
    splitOnNl_append_cons "[Service]".toList (by decide),
    splitOnNl_append_cons _ hexec,
    splitOnNl_append_cons "User=gopal".toList (by decide),
    splitOnNl_append_cons "Restart=on-failure".toList (by decide),
    splitOnNl_cons_nl,
    splitOnNl_append_cons "[Install]".toList (by decide),
    splitOnNl_append_cons "WantedBy=multi-user.target".toList (by decide)]
  rfl

/-- C8 amended: for inputs free of newline characters, parsing the
ExecStart line back out of the rendered unit text recovers exactly the
embedded exec command. -/
theorem service_content_roundtrip (jar_path jenkins_url agent_name username api_token
    work_dir : Chars) (h1 : '\n' ∉ jar_path) (h2 : '\n' ∉ jenkins_url)
    (h3 : '\n' ∉ agent_name) (h4 : '\n' ∉ username) (h5 : '\n' ∉ api_token)
    (h6 : '\n' ∉ work_dir) :
    parseExecStart
        (service_content jar_path jenkins_url agent_name username api_token work_dir) =
      some (execCommand jar_path jenkins_url agent_name username api_token work_dir) := by
  have hcmd := execCommand_no_nl jar_path jenkins_url agent_name username api_token
    work_dir h1 h2 h3 h4 h5 h6
  have pdesc : ("ExecStart=".toList).isPrefixOf
      ("Description=Jenkins Agent for ".toList ++ agent_name) = false := by
    refine isPrefixOf_ne_head 'E' _ _ ?_
    intro hc
    rw [show ("Description=Jenkins Agent for ".toList ++ agent_name).head? = some 'D'
      from rfl] at hc
    exact absurd hc (by decide)
  have pexec : ("ExecStart=".toList).isPrefixOf
      ("ExecStart=".toList ++
        execCommand jar_path jenkins_url agent_name username api_token work_dir) = true :=
    isPrefixOf_append_self _ _
  unfold parseExecStart
  rw [splitOnNl_service_content jar_path jenkins_url agent_name username api_token
    work_dir h3 hcmd]
  simp only [List.find?, pdesc, pexec,
    (by decide : ("ExecStart=".toList).isPrefixOf ([] : Chars) = false),
    (by decide : ("ExecStart=".toList).isPrefixOf "[Unit]".toList = false),
    (by decide : ("ExecStart=".toList).isPrefixOf "After=network.target".toList = false),
    (by decide : ("ExecStart=".toList).isPrefixOf "[Service]".toList = false)]
  simp [List.drop_left]

/-- Witness for service_content_roundtrip on concrete newline-free
inputs. -/
theorem service_content_roundtrip_witness :
    parseExecStart (service_content "/w/agent.jar".toList "http://ci:8080".toList
        "worker-1".toList "u".toList "t".toList "/w".toList) =
      some (execCommand "/w/agent.jar".toList "http://ci:8080".toList "worker-1".toList
        "u".toList "t".toList "/w".toList) :=
  service_content_roundtrip "/w/agent.jar".toList "http://ci:8080".toList
    "worker-1".toList "u".toList "t".toList "/w".toList
    (by decide) (by decide) (by decide) (by decide) (by decide) (by decide)

set_option maxRecDepth 20000 in
/-- C8 counterexample: with a newline inside the working directory the
round trip fails; the parsed ExecStart line is the truncated command, not
the embedded one. -/
theorem service_content_roundtrip_cex :
    parseExecStart (service_content "/w/agent.jar".toList "http://ci:8080".toList
        "worker-1".toList "u".toList "t".toList "/w\nExecStart=evil".toList) =
      some ("/usr/bin/java -jar /w/agent.jar -jnlpUrl http://ci:8080/computer/worker-1/jenkins-agent.jnlp -jnlpCredentials u:t -workDir /w".toList) ∧
    ((parseExecStart (service_content "/w/agent.jar".toList "http://ci:8080".toList
        "worker-1".toList "u".toList "t".toList "/w\nExecStart=evil".toList) ==
      some (execCommand "/w/agent.jar".toList "http://ci:8080".toList "worker-1".toList
        "u".toList "t".toList "/w\nExecStart=evil".toList)) = false) := by
  constructor
  · decide
  · decide

/-- C9: appending a trailing slash to a server URL that does not already
end in one leaves the rendered unit text unchanged, because
create_linux_service strips the trailing slash before embedding. -/
theorem service_content_trailing_slash (jar_path jenkins_url agent_name username
    api_token work_dir : Chars) (h : jenkins_url.getLast? ≠ some '/') :
    service_content jar_path (jenkins_url ++ ['/']) agent_name username api_token
        work_dir =
      service_content jar_path jenkins_url agent_name username api_token work_dir := by
  have h1 : stripTrailingSlash (jenkins_url ++ ['/']) = jenkins_url := by
    simp [stripTrailingSlash, List.getLast?_concat, List.dropLast_concat]
  have h2 : stripTrailingSlash jenkins_url = jenkins_url := by
    simp [stripTrailingSlash, h]
  unfold service_content execCommand
  rw [h1, h2]

/-- Witness for service_content_trailing_slash on a concrete URL. -/
theorem service_content_trailing_slash_witness :
    service_content "/w/agent.jar".toList ("http://ci:8080".toList ++ ['/'])
        "worker-1".toList "u".toList "t".toList "/w".toList =
      service_content "/w/agent.jar".toList "http://ci:8080".toList "worker-1".toList
        "u".toList "t".toList "/w".toList :=
  service_content_trailing_slash "/w/agent.jar".toList "http://ci:8080".toList
    "worker-1".toList "u".toList "t".toList "/w".toList (by decide)

end JAgent
